import Mathlib

/-!
Shallow embedding of the per-frame heuristics of
`src/finger-counter/src/App.jsx` (the only source file of the repository).

JavaScript numbers are modelled by real numbers; landmarks are records of
normalized coordinates.  JavaScript array access `a[i]` that may yield
`undefined` is modelled with `List.getElem?`; array access performed under a
length guard is modelled with `lm` (a total lookup, only used where the guard
makes it in range).  A `try { ... } catch` whose body can only throw on an
out-of-range landmark access is modelled by pattern matching on the optional
lookups and returning the catch value when one is missing.  The mutable React
refs and state cells read or written by `onResults` form `ProcState`;
`onResults` is the per-frame state transformer.
-/

namespace HolisticVision

/-- A single landmark: normalized x/y coordinates (the z coordinate is never
read by any heuristic in the source). -/
structure Landmark where
  x : ℝ
  y : ℝ

/-- Euclidean distance in normalized coordinates (the `distance` helper of
`App.jsx`). -/
noncomputable def distance (a b : Landmark) : ℝ :=
  Real.sqrt ((a.x - b.x) ^ 2 + (a.y - b.y) ^ 2)

/-- Face-mesh indices for the right eye, as in `App.jsx`. -/
def RIGHT_EYE : List ℕ := [33, 160, 158, 133, 153, 144]

/-- Face-mesh indices for the left eye, as in `App.jsx`. -/
def LEFT_EYE : List ℕ := [362, 385, 387, 263, 373, 380]

/-- Upper inner lip landmark index. -/
def MOUTH_UP : ℕ := 13

/-- Lower inner lip landmark index. -/
def MOUTH_DOWN : ℕ := 14

/-- Left cheek landmark index. -/
def FACE_LEFT : ℕ := 234

/-- Right cheek landmark index. -/
def FACE_RIGHT : ℕ := 454

/-- Total landmark lookup, used only where the source guards the index to be
in range (so the default is never produced there). -/
def lm (face : List Landmark) (i : ℕ) : Landmark :=
  face.getD i ⟨0, 0⟩

/-- Denominator of the eye aspect ratio: `2.0 * Math.max(1e-6, C)`. -/
noncomputable def earDenom (p1 p4 : Landmark) : ℝ :=
  2 * max 1e-6 (distance p1 p4)

/-- The `computeEAR` helper of `App.jsx`: the six indexed landmarks are read
inside a `try`; a missing landmark (out-of-range access throwing on property
read) lands in the `catch`, which returns the default `0.3`. -/
noncomputable def computeEAR (face : List Landmark) (indices : List ℕ) : ℝ :=
  match face[indices.getD 0 0]?, face[indices.getD 1 0]?, face[indices.getD 2 0]?,
        face[indices.getD 3 0]?, face[indices.getD 4 0]?, face[indices.getD 5 0]? with
  | some p1, some p2, some p3, some p4, some p5, some p6 =>
      (distance p2 p6 + distance p3 p5) / earDenom p1 p4
  | _, _, _, _, _, _ => 0.3

/-- The `countFingersFromHand` helper of `App.jsx`.  TIP indices 8/12/16/20
are compared against PIP indices 6/10/14/18; the thumb (tip 4, ip 3) is
compared against the wrist x (landmark 0).  All accesses sit inside a `try`
whose `catch` returns 0, modelled by the catch-all branch. -/
noncomputable def countFingersFromHand (landmarks : List Landmark) : ℕ :=
  match landmarks[8]?, landmarks[6]?, landmarks[12]?, landmarks[10]?,
        landmarks[16]?, landmarks[14]?, landmarks[20]?, landmarks[18]?,
        landmarks[4]?, landmarks[3]?, landmarks[0]? with
  | some tipIndex, some pipIndex, some tipMiddle, some pipMiddle,
    some tipRing, some pipRing, some tipPinky, some pipPinky,
    some thumbTip, some thumbIp, some palm =>
      ((if tipIndex.y < pipIndex.y then 1 else 0) +
       (if tipMiddle.y < pipMiddle.y then 1 else 0) +
       (if tipRing.y < pipRing.y then 1 else 0) +
       (if tipPinky.y < pipPinky.y then 1 else 0)) +
      (if |thumbTip.x - palm.x| > (0.03 : ℝ) ∧
          ((thumbTip.x < palm.x ∧ thumbIp.x < palm.x) ∨
           (thumbTip.x > palm.x ∧ thumbIp.x > palm.x))
       then 1 else 0)
  | _, _, _, _, _, _, _, _, _, _, _ => 0

/-- Denominator of the normalized mouth openness:
`Math.max(1e-6, distance(face[FACE_LEFT], face[FACE_RIGHT]))`. -/
noncomputable def mouthDenom (face : List Landmark) : ℝ :=
  max 1e-6 (distance (lm face FACE_LEFT) (lm face FACE_RIGHT))

/-- Normalized mouth openness computed in the `face.length >= 468` branch of
`onResults` (all four indices are then in range). -/
noncomputable def mouthOpenness (face : List Landmark) : ℝ :=
  distance (lm face MOUTH_UP) (lm face MOUTH_DOWN) / mouthDenom face

/-- One entry of the mouth-openness history buffer: `{ t: now, v: mouthOpen }`
(the timestamp `t` is recorded by the source but never read back). -/
structure MouthSample where
  t : ℝ
  v : ℝ

/-- The buffer update of `onResults`: `if (mBuf.length > 30) mBuf.shift();
mBuf.push(...)`. -/
def shiftPush (buf : List MouthSample) (s : MouthSample) : List MouthSample :=
  (if buf.length > 30 then buf.tail else buf) ++ [s]

/-- Mean of the buffered mouth-openness values:
`mBuf.reduce((s, x) => s + x.v, 0) / mBuf.length`. -/
noncomputable def bufAvg (buf : List MouthSample) : ℝ :=
  (buf.map MouthSample.v).sum / (buf.length : ℝ)

/-- Successive absolute differences of buffered values:
`mBuf.slice(1).map((x, i) => Math.abs(x.v - mBuf[i].v))`. -/
noncomputable def succDiffs (buf : List MouthSample) : List ℝ :=
  List.zipWith (fun a b => |b.v - a.v|) buf buf.tail

/-- Mean of the successive differences, `0` when there are none:
`diffs.length ? diffs.reduce(...) / diffs.length : 0`. -/
noncomputable def meanDiff (buf : List MouthSample) : ℝ :=
  if (succDiffs buf).length = 0 then 0
  else (succDiffs buf).sum / ((succDiffs buf).length : ℝ)

/-- The fields of the MediaPipe results object read by `onResults`.  Hand
landmark fields are treated exactly as the source treats them: as optional
arrays of hands, each hand an array of landmarks. -/
structure Results where
  faceLandmarks : Option (List Landmark)
  leftHandLandmarks : Option (List (List Landmark))
  rightHandLandmarks : Option (List (List Landmark))
  poseLandmarks : Option (List Landmark)

/-- The mutable cells read or written by `onResults`: the five React signal
states, the mouth-openness history buffer ref and the last-nose ref. -/
structure ProcState where
  fingerCount : ℕ
  leftEyeOpen : Bool
  rightEyeOpen : Bool
  speaking : Bool
  moving : Bool
  mouthBuf : List MouthSample
  lastNose : Option Landmark

/-- Initial values: counters zero, eyes open, flags false, empty buffer,
no recorded nose (`useState` / `useRef` initializers). -/
def initState : ProcState :=
  { fingerCount := 0, leftEyeOpen := true, rightEyeOpen := true,
    speaking := false, moving := false, mouthBuf := [], lastNose := none }

/-- Truthiness test `hand && hand.length` followed by `hand[0]`: the first
hand of an optional hand array, when the array is present and nonempty. -/
def firstHand : Option (List (List Landmark)) → Option (List Landmark)
  | some (h :: _) => some h
  | _ => none

/-- Hand selection of `onResults`: the right hand is preferred, else the left
hand, else none. -/
def pickedHand (results : Results) : Option (List Landmark) :=
  match firstHand results.rightHandLandmarks with
  | some h => some h
  | none => firstHand results.leftHandLandmarks

/-- Nose selection of `onResults`: pose landmark 0 when pose landmarks are
present and nonempty, else face landmark 1 when at least two face landmarks
are present, else none. -/
def noseOf (results : Results) : Option Landmark :=
  match results.poseLandmarks with
  | some (p :: _) => some p
  | _ =>
    match results.faceLandmarks with
    | some face => if 1 < face.length then face[1]? else none
    | none => none

/-- The per-frame `onResults` handler of `App.jsx`, restricted to its state
effects (the canvas drawing performed alongside is modelled separately by
`hudTexts`).  `now` is the `Date.now()` timestamp of the frame. -/
noncomputable def onResults (results : Results) (now : ℝ) (s : ProcState) : ProcState :=
  let fingerCount' : ℕ :=
    match pickedHand results with
    | some hl => if hl.length = 21 then countFingersFromHand hl else 0
    | none => 0
  let moving' : Bool :=
    match noseOf results, s.lastNose with
    | some n, some prev =>
        decide (Real.sqrt (|n.x - prev.x| ^ 2 + |n.y - prev.y| ^ 2) > 0.003)
    | some _, none => s.moving
    | none, _ => false
  let lastNose' : Option Landmark :=
    match noseOf results with
    | some n => some ⟨n.x, n.y⟩
    | none => s.lastNose
  match results.faceLandmarks with
  | some face =>
    if 468 ≤ face.length then
      let mBuf := shiftPush s.mouthBuf ⟨now, mouthOpenness face⟩
      { fingerCount := fingerCount',
        leftEyeOpen := decide (computeEAR face LEFT_EYE > 0.20),
        rightEyeOpen := decide (computeEAR face RIGHT_EYE > 0.20),
        speaking := decide (bufAvg mBuf > 0.03) && decide (meanDiff mBuf > 0.008),
        moving := moving',
        mouthBuf := mBuf,
        lastNose := lastNose' }
    else
      { fingerCount := fingerCount',
        leftEyeOpen := true,
        rightEyeOpen := true,
        speaking := false,
        moving := moving',
        mouthBuf := s.mouthBuf,
        lastNose := lastNose' }
  | none =>
    { fingerCount := fingerCount',
      leftEyeOpen := true,
      rightEyeOpen := true,
      speaking := false,
      moving := moving',
      mouthBuf := s.mouthBuf,
      lastNose := lastNose' }

/-- Processing a sequence of frames from a starting state. -/
noncomputable def runFrames (frames : List (Results × ℝ)) (s : ProcState) : ProcState :=
  frames.foldl (fun st fr => onResults fr.1 fr.2 st) s

/-- The five text lines written by `drawHUD`, in source order, as functions of
the current signal values. -/
def hudTexts (fingerCount : ℕ) (leftEyeOpen rightEyeOpen speaking moving : Bool) :
    List String :=
  ["Fingers: " ++ toString fingerCount,
   "Left eye: " ++ (if leftEyeOpen then "Open" else "Closed"),
   "Right eye: " ++ (if rightEyeOpen then "Open" else "Closed"),
   "Speaking: " ++ (if speaking then "Yes" else "No"),
   "Moving: " ++ (if moving then "Yes" else "No")]

/-! Concrete fixtures used to exercise the definitions on explicit inputs. -/

/-- Origin landmark. -/
def zPt : Landmark := ⟨0, 0⟩

/-- Landmark generator for a concrete 468-point face: mouth landmarks give a
normalized openness of 0.1, eye landmarks give an EAR of 0.3 for both eyes,
everything else sits at the origin. -/
noncomputable def testF (i : ℕ) : Landmark :=
  if i = 14 then ⟨0, 0.1⟩
  else if i = 133 then ⟨1, 0⟩
  else if i = 144 then ⟨0, 0.3⟩
  else if i = 153 then ⟨0, 0.3⟩
  else if i = 263 then ⟨1, 0⟩
  else if i = 373 then ⟨0, 0.3⟩
  else if i = 380 then ⟨0, 0.3⟩
  else if i = 454 then ⟨1, 0⟩
  else zPt

/-- A concrete face with exactly 468 landmarks. -/
noncomputable def testFace : List Landmark := (List.range 468).map testF

/-- Landmark generator for a concrete 21-point hand: index and ring fingers
up, middle and pinky down, thumb extended — three fingers in total. -/
noncomputable def testH (i : ℕ) : Landmark :=
  if i = 0 then ⟨0.5, 1⟩
  else if i = 4 then ⟨0.6, 0.9⟩
  else if i = 3 then ⟨0.58, 0.9⟩
  else if i = 8 then ⟨0.3, 0.2⟩
  else if i = 6 then ⟨0.3, 0.5⟩
  else if i = 12 then ⟨0.4, 0.8⟩
  else if i = 10 then ⟨0.4, 0.5⟩
  else if i = 16 then ⟨0.45, 0.2⟩
  else if i = 14 then ⟨0.45, 0.5⟩
  else if i = 20 then ⟨0.5, 0.8⟩
  else if i = 18 then ⟨0.5, 0.5⟩
  else zPt

/-- A concrete hand with exactly 21 landmarks. -/
noncomputable def testHand : List Landmark := (List.range 21).map testH

/-- A frame carrying only the concrete face. -/
noncomputable def faceOnlyResults : Results := ⟨some testFace, none, none, none⟩

/-- A frame carrying no landmarks at all. -/
def emptyResults : Results := ⟨none, none, none, none⟩

/-- A frame carrying only the concrete hand (as the right hand). -/
noncomputable def handOnlyResults : Results := ⟨none, none, some [testHand], none⟩

/-- A frame carrying only a pose whose nose landmark is at (0, 0.5). -/
noncomputable def poseOnlyResults : Results := ⟨none, none, none, some [⟨0, 0.5⟩]⟩

/-- A state differing from the initial one only in the mouth buffer. -/
noncomputable def bufState : ProcState :=
  { initState with mouthBuf := [⟨0, 0⟩] }

/-- A state differing from the initial one only in the recorded nose. -/
def noseState : ProcState :=
  { initState with lastNose := some zPt }

/-! Helper lemmas shared by the claim theorems. -/

/-- Distance between two landmarks with equal x reduces to the absolute
difference of the y coordinates. -/
theorem distance_same_x (x ya yb : ℝ) :
    distance ⟨x, ya⟩ ⟨x, yb⟩ = |ya - yb| := by
  simp [distance, Real.sqrt_sq_eq_abs]

/-- Distance between two landmarks with equal y reduces to the absolute
difference of the x coordinates. -/
theorem distance_same_y (xa xb y : ℝ) :
    distance ⟨xa, y⟩ ⟨xb, y⟩ = |xa - xb| := by
  simp [distance, Real.sqrt_sq_eq_abs]

/-- In-range optional lookup agrees with the total lookup `lm`. -/
theorem getElem?_eq_lm {face : List Landmark} {i : ℕ} (h : i < face.length) :
    face[i]? = some (lm face i) := by
  simp [lm, List.getElem?_eq_getElem h, List.getD_eq_getElem?_getD]

/-- The concrete face has 468 landmarks. -/
theorem testFace_length : testFace.length = 468 := by
  simp [testFace]

/-- In-range entries of the concrete face are given by the generator. -/
theorem lm_testFace {i : ℕ} (h : i < 468) : lm testFace i = testF i := by
  simp [lm, testFace, List.getD_eq_getElem?_getD, List.getElem?_map,
    List.getElem?_range h]

/-- The concrete hand has 21 landmarks. -/
theorem testHand_length : testHand.length = 21 := by
  simp [testHand]

/-- In-range entries of the concrete hand are given by the generator. -/
theorem lm_testHand {i : ℕ} (h : i < 21) : lm testHand i = testH i := by
  simp [lm, testHand, List.getD_eq_getElem?_getD, List.getElem?_map,
    List.getElem?_range h]

/-- `meanDiff` always equals the quotient form (division by a zero length
yields zero on both sides). -/
theorem meanDiff_eq (buf : List MouthSample) :
    meanDiff buf = (succDiffs buf).sum / ((succDiffs buf).length : ℝ) := by
  unfold meanDiff
  split
  · rename_i h
    rw [List.length_eq_zero] at h
    simp [h]
  · rfl

/-- Clamping against 1e-6 is the identity above the clamp. -/
theorem max_micro_eq {x : ℝ} (h : (1e-6 : ℝ) ≤ x) : max (1e-6 : ℝ) x = x :=
  max_eq_right h

/-- On a face with all six right-eye indices in range, `computeEAR` takes the
formula branch. -/
theorem computeEAR_right {face : List Landmark} (hlen : 468 ≤ face.length) :
    computeEAR face RIGHT_EYE =
      (distance (lm face 160) (lm face 144) + distance (lm face 158) (lm face 153)) /
        (2 * max 1e-6 (distance (lm face 33) (lm face 133))) := by
  have e0 : RIGHT_EYE.getD 0 0 = 33 := rfl
  have e1 : RIGHT_EYE.getD 1 0 = 160 := rfl
  have e2 : RIGHT_EYE.getD 2 0 = 158 := rfl
  have e3 : RIGHT_EYE.getD 3 0 = 133 := rfl
  have e4 : RIGHT_EYE.getD 4 0 = 153 := rfl
  have e5 : RIGHT_EYE.getD 5 0 = 144 := rfl
  simp only [computeEAR, e0, e1, e2, e3, e4, e5, earDenom,
    getElem?_eq_lm (show 33 < face.length by omega),
    getElem?_eq_lm (show 160 < face.length by omega),
    getElem?_eq_lm (show 158 < face.length by omega),
    getElem?_eq_lm (show 133 < face.length by omega),
    getElem?_eq_lm (show 153 < face.length by omega),
    getElem?_eq_lm (show 144 < face.length by omega)]

/-- On a face with all six left-eye indices in range, `computeEAR` takes the
formula branch. -/
theorem computeEAR_left {face : List Landmark} (hlen : 468 ≤ face.length) :
    computeEAR face LEFT_EYE =
      (distance (lm face 385) (lm face 380) + distance (lm face 387) (lm face 373)) /
        (2 * max 1e-6 (distance (lm face 362) (lm face 263))) := by
  have e0 : LEFT_EYE.getD 0 0 = 362 := rfl
  have e1 : LEFT_EYE.getD 1 0 = 385 := rfl
  have e2 : LEFT_EYE.getD 2 0 = 387 := rfl
  have e3 : LEFT_EYE.getD 3 0 = 263 := rfl
  have e4 : LEFT_EYE.getD 4 0 = 373 := rfl
  have e5 : LEFT_EYE.getD 5 0 = 380 := rfl
  simp only [computeEAR, e0, e1, e2, e3, e4, e5, earDenom,
    getElem?_eq_lm (show 362 < face.length by omega),
    getElem?_eq_lm (show 385 < face.length by omega),
    getElem?_eq_lm (show 387 < face.length by omega),
    getElem?_eq_lm (show 263 < face.length by omega),
    getElem?_eq_lm (show 373 < face.length by omega),
    getElem?_eq_lm (show 380 < face.length by omega)]

/-- C4: on every frame with at least 468 face landmarks, each eye is reported
open if and only if its eye aspect ratio (A+B)/(2*max(1e-6,C)) exceeds 0.20,
where A and B are the two vertical distances and C the horizontal distance
computed from that eye's six designated face-mesh indices. -/
theorem eyeOpen_iff_ear (results : Results) (now : ℝ) (s : ProcState)
    (face : List Landmark) (hf : results.faceLandmarks = some face)
    (hlen : 468 ≤ face.length) :
    ((onResults results now s).rightEyeOpen = true ↔
      (distance (lm face 160) (lm face 144) + distance (lm face 158) (lm face 153)) /
        (2 * max 1e-6 (distance (lm face 33) (lm face 133))) > 0.20) ∧
    ((onResults results now s).leftEyeOpen = true ↔
      (distance (lm face 385) (lm face 380) + distance (lm face 387) (lm face 373)) /
        (2 * max 1e-6 (distance (lm face 362) (lm face 263))) > 0.20) := by
  constructor
  · rw [← computeEAR_right hlen]
    simp [onResults, hf, hlen]
  · rw [← computeEAR_left hlen]
    simp [onResults, hf, hlen]

/-- C4 witness: on the concrete face both eye aspect ratios evaluate to 0.3,
so both eyes are reported open. -/
theorem eyeOpen_iff_ear_witness :
    468 ≤ testFace.length ∧
    (onResults faceOnlyResults 0 initState).rightEyeOpen = true ∧
    (onResults faceOnlyResults 0 initState).leftEyeOpen = true := by
  have hlen : 468 ≤ testFace.length := by rw [testFace_length]
  have h := eyeOpen_iff_ear faceOnlyResults 0 initState testFace rfl hlen
  refine ⟨hlen, ?_, ?_⟩
  · rw [h.1, lm_testFace (by norm_num), lm_testFace (by norm_num),
      lm_testFace (by norm_num), lm_testFace (by norm_num),
      lm_testFace (by norm_num), lm_testFace (by norm_num)]
    norm_num [testF, zPt, distance_same_x, distance_same_y,
      max_micro_eq (show (1e-6 : ℝ) ≤ 1 by norm_num)]
    rw [abs_of_pos (show (0 : ℝ) < 3 / 10 by norm_num)]
    norm_num
  · rw [h.2, lm_testFace (by norm_num), lm_testFace (by norm_num),
      lm_testFace (by norm_num), lm_testFace (by norm_num),
      lm_testFace (by norm_num), lm_testFace (by norm_num)]
    norm_num [testF, zPt, distance_same_x, distance_same_y,
      max_micro_eq (show (1e-6 : ℝ) ≤ 1 by norm_num)]
    rw [abs_of_pos (show (0 : ℝ) < 3 / 10 by norm_num)]
    norm_num

/-- On a frame with at least 468 face landmarks, the speaking flag is the
conjunction of the two buffer-threshold tests on the updated buffer. -/
theorem onResults_speaking_eq {results : Results} {now : ℝ} {s : ProcState}
    {face : List Landmark} (hf : results.faceLandmarks = some face)
    (hlen : 468 ≤ face.length) :
    (onResults results now s).speaking =
      (decide (bufAvg (shiftPush s.mouthBuf ⟨now, mouthOpenness face⟩) > 0.03) &&
       decide (meanDiff (shiftPush s.mouthBuf ⟨now, mouthOpenness face⟩) > 0.008)) := by
  simp [onResults, hf, hlen]

/-- The normalized mouth openness of the concrete face evaluates to 0.1. -/
theorem mouthOpenness_testFace : mouthOpenness testFace = 0.1 := by
  rw [mouthOpenness, mouthDenom]
  rw [show MOUTH_UP = 13 from rfl, show MOUTH_DOWN = 14 from rfl,
    show FACE_LEFT = 234 from rfl, show FACE_RIGHT = 454 from rfl]
  rw [lm_testFace (by norm_num), lm_testFace (by norm_num),
    lm_testFace (by norm_num), lm_testFace (by norm_num)]
  rw [show testF 13 = ⟨0, 0⟩ from rfl, show testF 14 = ⟨0, 0.1⟩ from rfl,
    show testF 234 = ⟨0, 0⟩ from rfl, show testF 454 = ⟨1, 0⟩ from rfl]
  rw [distance_same_x, distance_same_y]
  rw [show |(0 : ℝ) - 0.1| = 0.1 from by
      rw [abs_sub_comm, sub_zero]; exact abs_of_nonneg (by norm_num),
    show |(0 : ℝ) - 1| = 1 from by
      rw [abs_sub_comm, sub_zero]; exact abs_of_nonneg (by norm_num),
    max_micro_eq (show (1e-6 : ℝ) ≤ 1 by norm_num)]
  norm_num

/-- A one-entry buffer has no successive differences, so the quotient form of
the mean difference is zero and fails the 0.008 test. -/
theorem meanDiffForm_singleton (x : MouthSample) :
    ¬ ((succDiffs [x]).sum / ((succDiffs [x]).length : ℝ) > 0.008) := by
  simp [succDiffs]
  norm_num

/-- C2: on every frame where face landmarks with at least 468 points are
present, speaking is reported true if and only if the mean of the buffered
normalized mouth-openness values exceeds 0.03 and the mean absolute
difference between successive buffered values exceeds 0.008, where a frame's
mouth openness is the distance between inner-lip landmarks 13 and 14 divided
by max(1e-6, distance between cheek landmarks 234 and 454). -/
theorem speaking_iff_thresholds (results : Results) (now : ℝ) (s : ProcState)
    (face : List Landmark) (buf : List MouthSample)
    (hf : results.faceLandmarks = some face) (hlen : 468 ≤ face.length)
    (hbuf : buf = shiftPush s.mouthBuf
      ⟨now, distance (lm face MOUTH_UP) (lm face MOUTH_DOWN) /
        max 1e-6 (distance (lm face FACE_LEFT) (lm face FACE_RIGHT))⟩) :
    ((onResults results now s).speaking = true ↔
      ((buf.map MouthSample.v).sum / (buf.length : ℝ) > 0.03 ∧
       (succDiffs buf).sum / ((succDiffs buf).length : ℝ) > 0.008)) := by
  subst hbuf
  rw [onResults_speaking_eq hf hlen]
  simp only [Bool.and_eq_true, decide_eq_true_eq, bufAvg, meanDiff_eq,
    mouthOpenness, mouthDenom]

/-- C2 witness: on the concrete face processed from the initial state, the
updated buffer is a singleton, whose successive-difference mean is zero, so
speaking is reported false. -/
theorem speaking_iff_thresholds_witness :
    468 ≤ testFace.length ∧
    (onResults faceOnlyResults 0 initState).speaking = false := by
  have hlen : 468 ≤ testFace.length := by rw [testFace_length]
  have hbuf : ([⟨0, distance (lm testFace MOUTH_UP) (lm testFace MOUTH_DOWN) /
        max 1e-6 (distance (lm testFace FACE_LEFT) (lm testFace FACE_RIGHT))⟩] :
      List MouthSample) = shiftPush initState.mouthBuf
      ⟨0, distance (lm testFace MOUTH_UP) (lm testFace MOUTH_DOWN) /
        max 1e-6 (distance (lm testFace FACE_LEFT) (lm testFace FACE_RIGHT))⟩ := by
    simp [shiftPush, initState]
  have h := speaking_iff_thresholds faceOnlyResults 0 initState testFace _ rfl hlen hbuf
  refine ⟨hlen, ?_⟩
  cases hsp : (onResults faceOnlyResults 0 initState).speaking with
  | false => rfl
  | true => exact absurd (h.mp hsp).2 (meanDiffForm_singleton _)

/-- C1 counterexample: the same face-only frame, fed to two states that
differ only in the accumulated mouth-openness buffer, yields different
speaking values — the speaking signal is not recomputed from the frame's
landmarks alone. -/
theorem speaking_depends_on_state :
    (onResults faceOnlyResults 0 initState).speaking = false ∧
    (onResults faceOnlyResults 0 bufState).speaking = true := by
  have hlen : 468 ≤ testFace.length := by rw [testFace_length]
  constructor
  · rw [onResults_speaking_eq rfl hlen]
    have hbuf : shiftPush initState.mouthBuf ⟨0, mouthOpenness testFace⟩ =
        [⟨0, mouthOpenness testFace⟩] := by simp [shiftPush, initState]
    rw [hbuf]
    have h2 : ¬ (meanDiff [(⟨0, mouthOpenness testFace⟩ : MouthSample)] > 0.008) := by
      rw [meanDiff_eq]
      exact meanDiffForm_singleton _
    simp [h2]
  · rw [onResults_speaking_eq rfl hlen]
    have hbuf : shiftPush bufState.mouthBuf ⟨0, mouthOpenness testFace⟩ =
        [⟨0, 0⟩, ⟨0, mouthOpenness testFace⟩] := by
      simp [shiftPush, bufState, initState]
    rw [hbuf, mouthOpenness_testFace]
    have h1 : bufAvg [(⟨0, 0⟩ : MouthSample), ⟨0, 0.1⟩] > 0.03 := by
      simp [bufAvg, MouthSample.v]
      norm_num
    have h2 : meanDiff [(⟨0, 0⟩ : MouthSample), ⟨0, 0.1⟩] > 0.008 := by
      rw [meanDiff_eq]
      simp [succDiffs]
      rw [abs_of_nonneg (show (0 : ℝ) ≤ 0.1 by norm_num)]
      norm_num
    simp [h1, h2]

/-- C1 amended: the finger count and the two eye flags are recomputed from
the frame's landmarks alone — identical landmark inputs under different
accumulated state yield identical values for those three signals (speaking
and moving, by contrast, read the accumulated buffer and recorded nose). -/
theorem fingers_eyes_state_independent (results : Results) (now : ℝ)
    (s1 s2 : ProcState) :
    (onResults results now s1).fingerCount = (onResults results now s2).fingerCount ∧
    (onResults results now s1).leftEyeOpen = (onResults results now s2).leftEyeOpen ∧
    (onResults results now s1).rightEyeOpen = (onResults results now s2).rightEyeOpen := by
  cases hf : results.faceLandmarks with
  | none => simp [onResults, hf]
  | some face =>
    by_cases hlen : 468 ≤ face.length
    · simp [onResults, hf, hlen]
    · simp [onResults, hf, hlen]

/-- C3: for every detected hand given as exactly 21 landmarks, the reported
finger count equals the number of fingers among index, middle, ring and pinky
whose tip y-coordinate is strictly less than its PIP y-coordinate, plus one
for the thumb exactly when the tip-to-wrist x-distance exceeds 0.03 and the
thumb tip and IP joint lie on the same side of the wrist x-coordinate; the
count never exceeds 5, and it is 0 on any frame where no 21-landmark hand is
present. -/
theorem fingerCount_spec :
    (∀ hand : List Landmark, hand.length = 21 →
      countFingersFromHand hand =
        ((if (lm hand 8).y < (lm hand 6).y then 1 else 0) +
         (if (lm hand 12).y < (lm hand 10).y then 1 else 0) +
         (if (lm hand 16).y < (lm hand 14).y then 1 else 0) +
         (if (lm hand 20).y < (lm hand 18).y then 1 else 0)) +
        (if |(lm hand 4).x - (lm hand 0).x| > (0.03 : ℝ) ∧
            (((lm hand 4).x < (lm hand 0).x ∧ (lm hand 3).x < (lm hand 0).x) ∨
             ((lm hand 4).x > (lm hand 0).x ∧ (lm hand 3).x > (lm hand 0).x))
         then 1 else 0) ∧
      countFingersFromHand hand ≤ 5) ∧
    (∀ (results : Results) (now : ℝ) (s : ProcState),
      (∀ hl, pickedHand results = some hl → hl.length ≠ 21) →
      (onResults results now s).fingerCount = 0) := by
  constructor
  · intro hand hlen
    have heq : countFingersFromHand hand =
        ((if (lm hand 8).y < (lm hand 6).y then 1 else 0) +
         (if (lm hand 12).y < (lm hand 10).y then 1 else 0) +
         (if (lm hand 16).y < (lm hand 14).y then 1 else 0) +
         (if (lm hand 20).y < (lm hand 18).y then 1 else 0)) +
        (if |(lm hand 4).x - (lm hand 0).x| > (0.03 : ℝ) ∧
            (((lm hand 4).x < (lm hand 0).x ∧ (lm hand 3).x < (lm hand 0).x) ∨
             ((lm hand 4).x > (lm hand 0).x ∧ (lm hand 3).x > (lm hand 0).x))
         then 1 else 0) := by
      simp only [countFingersFromHand,
        getElem?_eq_lm (show 8 < hand.length by omega),
        getElem?_eq_lm (show 6 < hand.length by omega),
        getElem?_eq_lm (show 12 < hand.length by omega),
        getElem?_eq_lm (show 10 < hand.length by omega),
        getElem?_eq_lm (show 16 < hand.length by omega),
        getElem?_eq_lm (show 14 < hand.length by omega),
        getElem?_eq_lm (show 20 < hand.length by omega),
        getElem?_eq_lm (show 18 < hand.length by omega),
        getElem?_eq_lm (show 4 < hand.length by omega),
        getElem?_eq_lm (show 3 < hand.length by omega),
        getElem?_eq_lm (show 0 < hand.length by omega)]
    refine ⟨heq, ?_⟩
    rw [heq]
    split_ifs <;> norm_num
  · intro results now s hno
    have hfc : (onResults results now s).fingerCount =
        (match pickedHand results with
         | some hl => if hl.length = 21 then countFingersFromHand hl else 0
         | none => 0) := by
      cases hf : results.faceLandmarks with
      | none => simp [onResults, hf]
      | some face =>
        by_cases hlen : 468 ≤ face.length
        · simp [onResults, hf, hlen]
        · simp [onResults, hf, hlen]
    rw [hfc]
    cases hp : pickedHand results with
    | none => rfl
    | some hl => simp [hno hl hp]

/-- C3 witness: the concrete hand shows index and ring up, middle and pinky
down, thumb extended — three fingers; and a frame with no hand reports 0. -/
theorem fingerCount_spec_witness :
    testHand.length = 21 ∧ countFingersFromHand testHand ≤ 5 ∧
    countFingersFromHand testHand = 3 ∧
    (onResults emptyResults 0 initState).fingerCount = 0 := by
  have hlen : testHand.length = 21 := testHand_length
  have g8 : testHand[8]? = some ⟨0.3, 0.2⟩ := by
    rw [getElem?_eq_lm (show 8 < testHand.length by omega),
      lm_testHand (by norm_num)]
    norm_num [testH]
  have g6 : testHand[6]? = some ⟨0.3, 0.5⟩ := by
    rw [getElem?_eq_lm (show 6 < testHand.length by omega),
      lm_testHand (by norm_num)]
    norm_num [testH]
  have g12 : testHand[12]? = some ⟨0.4, 0.8⟩ := by
    rw [getElem?_eq_lm (show 12 < testHand.length by omega),
      lm_testHand (by norm_num)]
    norm_num [testH]
  have g10 : testHand[10]? = some ⟨0.4, 0.5⟩ := by
    rw [getElem?_eq_lm (show 10 < testHand.length by omega),
      lm_testHand (by norm_num)]
    norm_num [testH]
  have g16 : testHand[16]? = some ⟨0.45, 0.2⟩ := by
    rw [getElem?_eq_lm (show 16 < testHand.length by omega),
      lm_testHand (by norm_num)]
    norm_num [testH]
  have g14 : testHand[14]? = some ⟨0.45, 0.5⟩ := by
    rw [getElem?_eq_lm (show 14 < testHand.length by omega),
      lm_testHand (by norm_num)]
    norm_num [testH]
  have g20 : testHand[20]? = some ⟨0.5, 0.8⟩ := by
    rw [getElem?_eq_lm (show 20 < testHand.length by omega),
      lm_testHand (by norm_num)]
    norm_num [testH]
  have g18 : testHand[18]? = some ⟨0.5, 0.5⟩ := by
    rw [getElem?_eq_lm (show 18 < testHand.length by omega),
      lm_testHand (by norm_num)]
    norm_num [testH]
  have g4 : testHand[4]? = some ⟨0.6, 0.9⟩ := by
    rw [getElem?_eq_lm (show 4 < testHand.length by omega),
      lm_testHand (by norm_num)]
    norm_num [testH]
  have g3 : testHand[3]? = some ⟨0.58, 0.9⟩ := by
    rw [getElem?_eq_lm (show 3 < testHand.length by omega),
      lm_testHand (by norm_num)]
    norm_num [testH]
  have g0 : testHand[0]? = some ⟨0.5, 1⟩ := by
    rw [getElem?_eq_lm (show 0 < testHand.length by omega),
      lm_testHand (by norm_num)]
    norm_num [testH]
  have c1 : (0.2 : ℝ) < 0.5 := by norm_num
  have c2 : ¬ ((0.8 : ℝ) < 0.5) := by norm_num
  have ct : |(0.6 : ℝ) - 0.5| > (0.03 : ℝ) ∧
      (((0.6 : ℝ) < 0.5 ∧ (0.58 : ℝ) < 0.5) ∨
       ((0.6 : ℝ) > 0.5 ∧ (0.58 : ℝ) > 0.5)) := by
    constructor
    · rw [show (0.6 : ℝ) - 0.5 = 0.1 by norm_num,
        abs_of_nonneg (show (0 : ℝ) ≤ 0.1 by norm_num)]
      norm_num
    · exact Or.inr ⟨by norm_num, by norm_num⟩
  refine ⟨hlen, (fingerCount_spec.1 testHand hlen).2, ?_, ?_⟩
  · simp only [countFingersFromHand, g8, g6, g12, g10, g16, g14, g20, g18, g4, g3, g0]
    simp only [c1, c2, ct, if_true, if_false]
    norm_num
  · refine fingerCount_spec.2 emptyResults 0 initState ?_
    intro hl hp
    simp [pickedHand, firstHand, emptyResults] at hp

/-- C5: whenever a nose landmark is available (pose landmark 0 if pose
landmarks are present, otherwise face landmark 1) and a previous nose
position was recorded, moving is reported true if and only if the Euclidean
displacement of the nose since the previous frame exceeds 0.003; on any frame
with no nose landmark available, moving is reported false. -/
theorem moving_spec :
    (∀ (results : Results) (now : ℝ) (s : ProcState) (n prev : Landmark),
      noseOf results = some n → s.lastNose = some prev →
      ((onResults results now s).moving = true ↔
        Real.sqrt ((n.x - prev.x) ^ 2 + (n.y - prev.y) ^ 2) > 0.003)) ∧
    (∀ (results : Results) (now : ℝ) (s : ProcState),
      noseOf results = none → (onResults results now s).moving = false) := by
  constructor
  · intro results now s n prev hn hprev
    have hm : (onResults results now s).moving =
        decide (Real.sqrt (|n.x - prev.x| ^ 2 + |n.y - prev.y| ^ 2) > 0.003) := by
      cases hf : results.faceLandmarks with
      | none => simp [onResults, hf, hn, hprev]
      | some face =>
        by_cases hlen : 468 ≤ face.length
        · simp [onResults, hf, hlen, hn, hprev]
        · simp [onResults, hf, hlen, hn, hprev]
    rw [hm, sq_abs, sq_abs]
    simp
  · intro results now s hn
    cases hf : results.faceLandmarks with
    | none => simp [onResults, hf, hn]
    | some face =>
      by_cases hlen : 468 ≤ face.length
      · simp [onResults, hf, hlen, hn]
      · simp [onResults, hf, hlen, hn]

/-- C5 witness: a pose nose at (0, 0.5) against a recorded nose at the origin
moves by 0.5 > 0.003, so moving is reported true; a frame with no nose
reports false. -/
theorem moving_spec_witness :
    noseOf poseOnlyResults = some ⟨0, 0.5⟩ ∧
    (onResults poseOnlyResults 0 noseState).moving = true ∧
    noseOf emptyResults = none ∧
    (onResults emptyResults 0 initState).moving = false := by
  refine ⟨rfl, ?_, rfl, moving_spec.2 emptyResults 0 initState rfl⟩
  have h := moving_spec.1 poseOnlyResults 0 noseState ⟨0, 0.5⟩ zPt rfl rfl
  rw [h, gt_iff_lt, Real.lt_sqrt (by norm_num)]
  norm_num [zPt]

/-- C6: every division performed by the geometric heuristics — the eye aspect
ratio and the normalized mouth openness — has its denominator clamped below
by 1e-6, so no division by zero occurs. -/
theorem ratio_denominators_guarded (face : List Landmark) (p1 p4 : Landmark) :
    (1e-6 : ℝ) ≤ mouthDenom face ∧ mouthDenom face ≠ 0 ∧
    (1e-6 : ℝ) ≤ earDenom p1 p4 ∧ earDenom p1 p4 ≠ 0 := by
  have h1 : (1e-6 : ℝ) ≤ mouthDenom face := le_max_left _ _
  have h2 : (1e-6 : ℝ) ≤ earDenom p1 p4 := by
    rw [earDenom]
    have hm := le_max_left (1e-6 : ℝ) (distance p1 p4)
    linarith
  refine ⟨h1, ?_, h2, ?_⟩
  · exact (lt_of_lt_of_le (show (0 : ℝ) < 1e-6 by norm_num) h1).ne'
  · exact (lt_of_lt_of_le (show (0 : ℝ) < 1e-6 by norm_num) h2).ne'

/-- C7: the HUD panel renders exactly the five current signal values as text:
the literal string for the finger count, Open/Closed per eye flag, and Yes/No
for the speaking and moving flags, in source order. -/
theorem hud_renders_signals (fc : ℕ) (l r sp mv : Bool) :
    (hudTexts fc l r sp mv).length = 5 ∧
    (hudTexts fc l r sp mv)[0]? = some ("Fingers: " ++ toString fc) ∧
    (hudTexts fc l r sp mv)[1]? = some ("Left eye: " ++ (if l then "Open" else "Closed")) ∧
    (hudTexts fc l r sp mv)[2]? = some ("Right eye: " ++ (if r then "Open" else "Closed")) ∧
    (hudTexts fc l r sp mv)[3]? = some ("Speaking: " ++ (if sp then "Yes" else "No")) ∧
    (hudTexts fc l r sp mv)[4]? = some ("Moving: " ++ (if mv then "Yes" else "No")) :=
  ⟨rfl, rfl, rfl, rfl, rfl, rfl⟩

/-- The buffer update cannot grow the buffer beyond 31 entries. -/
theorem shiftPush_length_le (buf : List MouthSample) (x : MouthSample)
    (h : buf.length ≤ 31) : (shiftPush buf x).length ≤ 31 := by
  rw [shiftPush]
  by_cases h30 : buf.length > 30
  · rw [if_pos h30]
    simp only [List.length_append, List.length_tail, List.length_cons,
      List.length_nil]
    omega
  · rw [if_neg h30]
    simp only [List.length_append, List.length_cons, List.length_nil]
    omega

/-- A single frame preserves the buffer bound. -/
theorem onResults_mouthBuf_le (results : Results) (now : ℝ) (s : ProcState)
    (h : s.mouthBuf.length ≤ 31) :
    (onResults results now s).mouthBuf.length ≤ 31 := by
  cases hf : results.faceLandmarks with
  | none => simpa [onResults, hf] using h
  | some face =>
    by_cases hlen : 468 ≤ face.length
    · have hs := shiftPush_length_le s.mouthBuf ⟨now, mouthOpenness face⟩ h
      simpa [onResults, hf, hlen] using hs
    · simpa [onResults, hf, hlen] using h

/-- C8: across every sequence of processed frames from the initial state, the
mouth-openness history buffer holds at most 31 entries. -/
theorem mouthBuf_bounded (frames : List (Results × ℝ)) :
    (runFrames frames initState).mouthBuf.length ≤ 31 := by
  suffices H : ∀ s : ProcState, s.mouthBuf.length ≤ 31 →
      (runFrames frames s).mouthBuf.length ≤ 31 by
    exact H initState (by simp [initState])
  induction frames with
  | nil => intro s hs; simpa [runFrames] using hs
  | cons fr rest ih =>
    intro s hs
    have h1 := onResults_mouthBuf_le fr.1 fr.2 s hs
    have h2 := ih (onResults fr.1 fr.2 s) h1
    simpa [runFrames] using h2

/-- C9: on every frame where face landmarks are absent or number fewer than
468, both eyes are reported open, speaking is reported false, and the
mouth-openness history buffer is left unchanged. -/
theorem no_face_fallback (results : Results) (now : ℝ) (s : ProcState)
    (h : results.faceLandmarks = none ∨
      ∃ face, results.faceLandmarks = some face ∧ face.length < 468) :
    (onResults results now s).leftEyeOpen = true ∧
    (onResults results now s).rightEyeOpen = true ∧
    (onResults results now s).speaking = false ∧
    (onResults results now s).mouthBuf = s.mouthBuf := by
  rcases h with hf | ⟨face, hf, hlen⟩
  · simp [onResults, hf]
  · have hn : ¬ 468 ≤ face.length := by omega
    simp [onResults, hf, hn]

/-- C9 witness: a frame with no face landmarks, processed from a state with a
nonempty buffer, reports both eyes open, speaking false, and keeps the
buffer. -/
theorem no_face_fallback_witness :
    emptyResults.faceLandmarks = none ∧
    (onResults emptyResults 0 bufState).leftEyeOpen = true ∧
    (onResults emptyResults 0 bufState).rightEyeOpen = true ∧
    (onResults emptyResults 0 bufState).speaking = false ∧
    (onResults emptyResults 0 bufState).mouthBuf = bufState.mouthBuf := by
  have h := no_face_fallback emptyResults 0 bufState (Or.inl rfl)
  exact ⟨rfl, h.1, h.2.1, h.2.2.1, h.2.2.2⟩

/-- C10: for any face landmark array in which one of the six indexed eye
landmarks is missing, computeEAR returns the default value 0.3, which exceeds
the 0.20 threshold and therefore classifies that eye as open. -/
theorem ear_default_open (face : List Landmark) (indices : List ℕ)
    (h : face[indices.getD 0 0]? = none ∨ face[indices.getD 1 0]? = none ∨
         face[indices.getD 2 0]? = none ∨ face[indices.getD 3 0]? = none ∨
         face[indices.getD 4 0]? = none ∨ face[indices.getD 5 0]? = none) :
    computeEAR face indices = 0.3 ∧ computeEAR face indices > 0.20 := by
  have heq : computeEAR face indices = 0.3 := by
    unfold computeEAR
    rcases e0 : face[indices.getD 0 0]? with _ | p1 <;>
    rcases e1 : face[indices.getD 1 0]? with _ | p2 <;>
    rcases e2 : face[indices.getD 2 0]? with _ | p3 <;>
    rcases e3 : face[indices.getD 3 0]? with _ | p4 <;>
    rcases e4 : face[indices.getD 4 0]? with _ | p5 <;>
    rcases e5 : face[indices.getD 5 0]? with _ | p6 <;>
    first
      | rfl
      | (exfalso
         have b0 := (List.getElem?_eq_some_iff.mp e0).1
         have b1 := (List.getElem?_eq_some_iff.mp e1).1
         have b2 := (List.getElem?_eq_some_iff.mp e2).1
         have b3 := (List.getElem?_eq_some_iff.mp e3).1
         have b4 := (List.getElem?_eq_some_iff.mp e4).1
         have b5 := (List.getElem?_eq_some_iff.mp e5).1
         rcases h with h | h | h | h | h | h <;>
           rw [List.getElem?_eq_none_iff] at h <;> omega)
  refine ⟨heq, ?_⟩
  rw [heq]
  norm_num

/-- C10 witness: on the empty landmark array every lookup misses, so the EAR
defaults to 0.3 and exceeds the open threshold. -/
theorem ear_default_open_witness :
    (([] : List Landmark)[RIGHT_EYE.getD 0 0]? = none) ∧
    computeEAR [] RIGHT_EYE = 0.3 ∧ computeEAR [] RIGHT_EYE > 0.20 := by
  have h := ear_default_open [] RIGHT_EYE (Or.inl rfl)
  exact ⟨rfl, h.1, h.2⟩

end HolisticVision
